import Mathlib

/-!
Verification development for the chainproofserver payment-verification
pipeline (`src/controllers/paymentController.js` and the Mongoose payment
schema).  The JavaScript controller is shallowly embedded as total Lean
functions: external collaborators (Solana RPC, MongoDB) are modelled as an
explicit `Env` of per-call oracle answers, the database as an association
list keyed by the persisted `transactionSignature` string, and thrown
exceptions as `failure` results, mirroring the `try`/`catch` structure of
`verifyPayment`.
-/

namespace ChainProof

/-! ## Byte-string encodings

`verifyPayment` derives its step-3 lookup key with
`Buffer.from(signature.signature).toString('base64')` (line 40) and the
recovered submission signature with `bs58.encode(sig.signature)` (line 94);
both encoders are embedded executably.
-/

/-- Substring test on char lists, embedding JavaScript `String.includes`. -/
def containsSub (needle : List Char) : List Char → Bool
  | [] => needle.isEmpty
  | c :: rest => needle.isPrefixOf (c :: rest) || containsSub needle rest

/-- JavaScript `hay.includes(needle)`. -/
def strIncludes (hay needle : String) : Bool :=
  containsSub needle.toList hay.toList

def base64Alphabet : List Char :=
  "ABCDEFGHIJKLMNOPQRSTUVWXYZabcdefghijklmnopqrstuvwxyz0123456789+/".toList

def b64char (n : Nat) : Char := base64Alphabet.getD n '?'

/-- Standard base64 with padding, three input bytes per four output chars. -/
def base64Chunks : List Nat → List Char
  | [] => []
  | [a] => [b64char (a / 4), b64char (a % 4 * 16), '=', '=']
  | [a, b] => [b64char (a / 4), b64char (a % 4 * 16 + b / 16), b64char (b % 16 * 4), '=']
  | a :: b :: c :: rest =>
      b64char (a / 4) :: b64char (a % 4 * 16 + b / 16) ::
        b64char (b % 16 * 4 + c / 64) :: b64char (c % 64) :: base64Chunks rest

/-- `Buffer.toString('base64')`. -/
def base64Encode (bs : List Nat) : String := String.mk (base64Chunks bs)

def base58Alphabet : List Char :=
  "123456789ABCDEFGHJKLMNPQRSTUVWXYZabcdefghijkmnopqrstuvwxyz".toList

def b58char (n : Nat) : Char := base58Alphabet.getD n '?'

/-- Big-endian interpretation of a byte list as a natural number. -/
def bytesToNat (bs : List Nat) : Nat := bs.foldl (fun acc b => acc * 256 + b) 0

/-- Base-58 digits of `n` (most significant first); the first argument is
structural fuel, always instantiated large enough for the given bytes. -/
def natToB58 : Nat → Nat → List Char
  | 0, _ => []
  | _ + 1, 0 => []
  | fuel + 1, n + 1 => natToB58 fuel ((n + 1) / 58) ++ [b58char ((n + 1) % 58)]

def countLeadingZeroBytes : List Nat → Nat
  | [] => 0
  | b :: rest => if b = 0 then countLeadingZeroBytes rest + 1 else 0

/-- `bs58.encode`: one leading '1' per leading zero byte, then the
base-58 digits of the remaining big-endian value. -/
def base58Encode (bs : List Nat) : String :=
  String.mk (List.replicate (countLeadingZeroBytes bs) '1' ++
    natToB58 (2 * bs.length + 1) (bytesToNat bs))

/-! ## Data model: the Payment document and the database

From the Mongoose `paymentSchema`: one document per
`transactionSignature` (declared `unique`), with status enum
pending/confirmed/failed.  `findOneAndUpdate` with `upsert: true` either
updates the fields supplied in the update document (other fields kept) or
inserts a fresh document; `new Date()` timestamps are modelled by the
boolean presence flag `verifiedAt`.
-/

inductive Status where
  | pending
  | confirmed
  | failed
deriving DecidableEq, Repr

structure PaymentRecord where
  userId : Option String
  transactionSignature : String
  amount : Int
  tokenMint : String
  senderWallet : Option String
  recipientWallet : String
  endpoint : String
  status : Status
  blockTime : Option Int
  slot : Option Nat
  network : String
  verifiedAt : Bool
deriving DecidableEq, Repr

/-- The update document passed to `createPaymentRecord`.  For `blockTime`
and `slot` the outer `Option` records whether the field is present in the
update at all (absent fields of an existing document are left untouched by
a Mongo `$set`). -/
structure PaymentData where
  userId : Option String
  transactionSignature : String
  amount : Int
  tokenMint : String
  senderWallet : Option String
  recipientWallet : String
  endpoint : String
  status : Status
  blockTime : Option (Option Int)
  slot : Option Nat
  network : String
  verifiedAt : Bool
deriving DecidableEq, Repr

abbrev Db := List (String × PaymentRecord)

/-- `Payment.findOne({ transactionSignature: sig })`. -/
def dbFind (db : Db) (sig : String) : Option PaymentRecord :=
  (db.find? (fun p => p.1 == sig)).map (fun p => p.2)

def freshRecord (d : PaymentData) : PaymentRecord :=
  { userId := d.userId, transactionSignature := d.transactionSignature, amount := d.amount,
    tokenMint := d.tokenMint, senderWallet := d.senderWallet,
    recipientWallet := d.recipientWallet, endpoint := d.endpoint, status := d.status,
    blockTime := d.blockTime.getD none, slot := d.slot, network := d.network,
    verifiedAt := d.verifiedAt }

def mergeRecord (old : PaymentRecord) (d : PaymentData) : PaymentRecord :=
  { userId := d.userId, transactionSignature := d.transactionSignature, amount := d.amount,
    tokenMint := d.tokenMint, senderWallet := d.senderWallet,
    recipientWallet := d.recipientWallet, endpoint := d.endpoint, status := d.status,
    blockTime := d.blockTime.getD old.blockTime,
    slot := match d.slot with
      | some s => some s
      | none => old.slot,
    network := d.network,
    verifiedAt := old.verifiedAt || d.verifiedAt }

/-- `Payment.findOneAndUpdate({ transactionSignature }, paymentData,
{ upsert: true, new: true })`: returns the resulting document and the new
database state. -/
def createPaymentRecord (db : Db) (d : PaymentData) : PaymentRecord × Db :=
  match dbFind db d.transactionSignature with
  | some old =>
      let r := mergeRecord old d
      (r, db.map (fun p => if p.1 == d.transactionSignature then (p.1, r) else p))
  | none =>
      let r := freshRecord d
      (r, db ++ [(d.transactionSignature, r)])

/-- Number of documents stored under a signature key. -/
def countSig (db : Db) (k : String) : Nat := (db.filter (fun p => p.1 == k)).length

/-! ## Transactions and the environment of external collaborators -/

/-- `TOKEN_PROGRAM_ID` from `@solana/spl-token`. -/
def TOKEN_PROGRAM_ID : String := "TokenkegQfeZyiNwAJbNbGKPFXCWuBvf9Ss623VQ5DA"

structure Instruction where
  programId : String
  data : List Nat
  keys : List String
deriving DecidableEq, Repr

/-- A decoded `@solana/web3.js` transaction: the signature slots may hold
`null` signatures, and the instruction list. -/
structure Transaction where
  signatures : List (Option (List Nat))
  instructions : List Instruction
deriving DecidableEq, Repr

/-- The base64 request body: either `Transaction.from` throws with some
message, or it yields a decoded transaction. -/
inductive Blob where
  | undecodable (message : String)
  | tx (t : Transaction)
deriving DecidableEq, Repr

structure Config where
  paymentWallet : String
  requiredAmount : Nat
  tokenMint : String
  network : String
deriving DecidableEq, Repr

/-- Result of `connection.sendRawTransaction`: the returned signature
string, or a thrown error message. -/
inductive SendResult where
  | ok (sig : String)
  | err (message : String)
deriving DecidableEq, Repr

/-- Result of `simulateTransaction` / `confirmTransaction` RPC calls: clean
success, a non-null `value.err`, or a thrown exception. -/
inductive RpcCall where
  | ok
  | errValue (e : String)
  | threw (message : String)
deriving DecidableEq, Repr

/-- One entry of `meta.preTokenBalances` / `meta.postTokenBalances`, with
`amount` standing for `Number(uiTokenAmount.amount)`. -/
structure TokenBalance where
  accountIndex : Nat
  owner : String
  mint : String
  amount : Int
deriving DecidableEq, Repr

structure TxMeta where
  preTokenBalances : List TokenBalance
  postTokenBalances : List TokenBalance
  err : Option String
  logMessages : List String
deriving DecidableEq, Repr

structure TxDetails where
  meta : Option TxMeta
  blockTime : Option Int
  slot : Nat
deriving DecidableEq, Repr

/-- Result of `connection.getTransaction`. -/
inductive GetTxResult where
  | found (d : TxDetails)
  | notFound
  | threw (message : String)
deriving DecidableEq, Repr

/-- Per-call answers of the external collaborators; `writeFail` carries the
message of a persistence-layer error thrown by `findOneAndUpdate`. -/
structure Env where
  simulate : RpcCall
  sendRaw : SendResult
  confirm : RpcCall
  getTx : GetTxResult
  writeFail : Option String
deriving DecidableEq, Repr

/-! ## Step 4: `validateTransactionInstructions` -/

/-- A token-program instruction whose first data byte is 3 (SPL Transfer). -/
def isTransferIx (ix : Instruction) : Bool :=
  ix.programId == TOKEN_PROGRAM_ID && ix.data.head? == some 3

/-- The `for`/`break` loop of `validateTransactionInstructions`: the first
transfer instruction, if any. -/
def findTransferIx : List Instruction → Option Instruction
  | [] => none
  | ix :: rest => if isTransferIx ix then some ix else findTransferIx rest

/-- `data.readBigUInt64LE(off)`: little-endian u64 at bytes `off..off+7`. -/
def readU64LE (data : List Nat) (off : Nat) : Nat :=
  (List.range 8).foldl (fun acc i => acc + data.getD (off + i) 0 * 256 ^ i) 0

def noInstructionsMsg : String := "No instructions in transaction"
def noTransferMsg : String := "No SPL token transfer instruction found"
def insufficientMsg (required received : Nat) : String :=
  "Insufficient payment amount. Required: " ++ toString required ++
    ", Received: " ++ toString received
/-- Message of the `RangeError` thrown by `readBigUInt64LE` on short data,
wrapped by the validator's catch clause. -/
def validationRangeMsg : String :=
  "Transaction validation failed: offset is out of range"

inductive ValidationResult where
  | valid (amount : Nat) (sender : Option String)
  | invalid (error : String)
deriving DecidableEq, Repr

def validateTransactionInstructions (cfg : Config) (t : Transaction) : ValidationResult :=
  if t.instructions.isEmpty then .invalid noInstructionsMsg
  else
    match findTransferIx t.instructions with
    | none => .invalid noTransferMsg
    | some ix =>
      if ix.data.length < 9 then .invalid validationRangeMsg
      else
        let amount := readU64LE ix.data 1
        let sender := if 2 ≤ ix.keys.length then ix.keys.head? else none
        if amount < cfg.requiredAmount then
          .invalid (insufficientMsg cfg.requiredAmount amount)
        else .valid amount sender

/-! ## Step 8: `parseTokenTransfers` and `verifyOnChainTransfer` -/

structure AcctInfo where
  pre : Int
  post : Int
  owner : String
  mint : String
deriving DecidableEq, Repr

structure TransferInfo where
  destination : String
  mint : String
  amount : Int
  accountIndex : Nat
deriving DecidableEq, Repr

/-- Insertion-order-preserving JavaScript `Map` over account indices. -/
def mapLookup (m : List (Nat × AcctInfo)) (k : Nat) : Option AcctInfo :=
  (m.find? (fun p => p.1 == k)).map (fun p => p.2)

def mapSet (m : List (Nat × AcctInfo)) (k : Nat) (v : AcctInfo) : List (Nat × AcctInfo) :=
  if m.any (fun p => p.1 == k) then m.map (fun p => if p.1 == k then (k, v) else p)
  else m ++ [(k, v)]

def processPre (m : List (Nat × AcctInfo)) (b : TokenBalance) : List (Nat × AcctInfo) :=
  mapSet m b.accountIndex ⟨b.amount, 0, b.owner, b.mint⟩

/-- Post-balance processing mutates only `post` of an existing entry. -/
def processPost (m : List (Nat × AcctInfo)) (b : TokenBalance) : List (Nat × AcctInfo) :=
  match mapLookup m b.accountIndex with
  | some a => mapSet m b.accountIndex ⟨a.pre, b.amount, a.owner, a.mint⟩
  | none => m ++ [(b.accountIndex, ⟨0, b.amount, b.owner, b.mint⟩)]

def buildAccountMap (meta : TxMeta) : List (Nat × AcctInfo) :=
  meta.postTokenBalances.foldl processPost (meta.preTokenBalances.foldl processPre [])

/-- An account whose balance increased contributes a transfer for the
post-minus-pre delta. -/
def diffStep (acc : List TransferInfo) (p : Nat × AcctInfo) : List TransferInfo :=
  if 0 < p.2.post - p.2.pre then
    acc ++ [⟨p.2.owner, p.2.mint, p.2.post - p.2.pre, p.1⟩]
  else acc

def diffTransfers (m : List (Nat × AcctInfo)) : List TransferInfo :=
  m.foldl diffStep []

/-- The no-balance-change fallback: when logs show a successful Transfer,
assume the configured required amount was transferred to the wallet. -/
def logFallback (cfg : Config) (meta : TxMeta) : List TransferInfo :=
  if meta.logMessages.any (fun log =>
      strIncludes log "Instruction: Transfer" && strIncludes log "success") then
    match meta.postTokenBalances.find? (fun b =>
        b.owner == cfg.paymentWallet && b.mint == cfg.tokenMint) with
    | some b => [⟨b.owner, b.mint, (cfg.requiredAmount : Int), b.accountIndex⟩]
    | none => []
  else []

def parseTokenTransfers (cfg : Config) (d : TxDetails) : List TransferInfo :=
  match d.meta with
  | none => []
  | some meta =>
    let transfers := diffTransfers (buildAccountMap meta)
    if transfers.isEmpty && meta.err == none then logFallback cfg meta else transfers

inductive TransferVerification where
  | ok (amount : Int) (blockTime : Option Int) (slot : Nat)
  | fail (error : String)
deriving DecidableEq, Repr

def notFoundMsg : String := "Transaction not found on chain"
def noMatchingTransferMsg : String := "No matching token transfer found"
def insufficientTransferMsg (required : Nat) (got : Int) : String :=
  "Insufficient amount transferred. Required: " ++ toString required ++
    ", Got: " ++ toString got

/-- `transfer.destination.includes(paymentWallet) && transfer.mint === tokenMint`. -/
def matchesPayment (cfg : Config) (tr : TransferInfo) : Bool :=
  strIncludes tr.destination cfg.paymentWallet && tr.mint == cfg.tokenMint

def verifyOnChainTransfer (cfg : Config) (env : Env) : TransferVerification :=
  match env.getTx with
  | .threw m => .fail ("On-chain verification failed: " ++ m)
  | .notFound => .fail notFoundMsg
  | .found d =>
    match (parseTokenTransfers cfg d).find? (matchesPayment cfg) with
    | none => .fail noMatchingTransferMsg
    | some tr =>
      if tr.amount < (cfg.requiredAmount : Int) then
        .fail (insufficientTransferMsg cfg.requiredAmount tr.amount)
      else .ok tr.amount d.blockTime d.slot

/-! ## Steps 5-7 plumbing -/

/-- `simulateTransaction`, collapsed to its error message if any. -/
def simulateResultError : RpcCall → Option String
  | .ok => none
  | .errValue e => some ("Transaction simulation failed: " ++ e)
  | .threw m => some ("Simulation error: " ++ m)

/-- `confirmTransaction`, collapsed to its error message if any. -/
def confirmResultError : RpcCall → Option String
  | .ok => none
  | .errValue e => some ("Transaction failed: " ++ e)
  | .threw m => some ("Confirmation error: " ++ m)

/-- The three `error.message.includes(...)` checks of step 6. -/
def isAlreadyProcessedMsg (m : String) : Bool :=
  strIncludes m "already processed" || strIncludes m "already been processed" ||
    strIncludes m "This transaction has already been processed"

/-! ## `verifyPayment` -/

inductive VResult where
  | success (payment : PaymentRecord) (message : String)
  | failure (error : String)
deriving DecidableEq, Repr

/-- Result of one `verifyPayment` call together with the resulting database
state and counters for the network submissions, simulations and successful
persistence writes the call performed. -/
structure VerifyOutcome where
  result : VResult
  db : Db
  submissions : Nat
  simulations : Nat
  dbWrites : Nat
deriving DecidableEq, Repr

def invalidSigMsg : String := "Invalid transaction signature"
def previouslyFailedMsg : String := "Transaction previously failed verification"
def alreadyConfirmedMsg : String := "Payment already confirmed"
def confirmedOkMsg : String := "Payment verified and confirmed"
def submissionFailedMsg (m : String) : String := "Transaction submission failed: " ++ m

/-- The update document of the step-7 failed-record write. -/
def failedData (cfg : Config) (userId : Option String) (txSig : String) (amount : Nat)
    (sender : Option String) (endpoint : String) : PaymentData :=
  { userId := userId, transactionSignature := txSig, amount := (amount : Int),
    tokenMint := cfg.tokenMint, senderWallet := sender,
    recipientWallet := cfg.paymentWallet, endpoint := endpoint, status := .failed,
    blockTime := none, slot := none, network := cfg.network, verifiedAt := false }

/-- The update document of the step-9 confirmed-record write. -/
def confirmedData (cfg : Config) (userId : Option String) (txSig : String) (amount : Int)
    (sender : Option String) (endpoint : String) (blockTime : Option Int)
    (slot : Nat) : PaymentData :=
  { userId := userId, transactionSignature := txSig, amount := amount,
    tokenMint := cfg.tokenMint, senderWallet := sender,
    recipientWallet := cfg.paymentWallet, endpoint := endpoint, status := .confirmed,
    blockTime := some blockTime, slot := some slot, network := cfg.network,
    verifiedAt := true }

/-- Steps 7-9: confirmation, on-chain transfer verification, persistence. -/
def verifyFromConfirm (cfg : Config) (env : Env) (db : Db) (txSig : String)
    (amount : Nat) (sender : Option String) (endpoint : String)
    (userId : Option String) : VerifyOutcome :=
  match confirmResultError env.confirm with
  | some e =>
    match env.writeFail with
    | some m => ⟨.failure m, db, 1, 1, 0⟩
    | none =>
      let r := createPaymentRecord db (failedData cfg userId txSig amount sender endpoint)
      ⟨.failure e, r.2, 1, 1, 1⟩
  | none =>
    match verifyOnChainTransfer cfg env with
    | .fail e => ⟨.failure e, db, 1, 1, 0⟩
    | .ok amt bt slot =>
      match env.writeFail with
      | some m => ⟨.failure m, db, 1, 1, 0⟩
      | none =>
        let r := createPaymentRecord db
          (confirmedData cfg userId txSig amt sender endpoint bt slot)
        ⟨.success r.1 confirmedOkMsg, r.2, 1, 1, 1⟩

/-- Steps 4-9, entered once the step-3 lookup found no blocking record.  In
step 6 an "already processed" submission error recovers the signature as
`bs58.encode` of the transaction's first signature. -/
def verifyFromValidation (cfg : Config) (env : Env) (db : Db) (t : Transaction)
    (sigBytes : List Nat) (endpoint : String) (userId : Option String) : VerifyOutcome :=
  match validateTransactionInstructions cfg t with
  | .invalid e => ⟨.failure e, db, 0, 0, 0⟩
  | .valid amount sender =>
    match simulateResultError env.simulate with
    | some e => ⟨.failure e, db, 0, 1, 0⟩
    | none =>
      match env.sendRaw with
      | .ok s => verifyFromConfirm cfg env db s amount sender endpoint userId
      | .err m =>
        if isAlreadyProcessedMsg m then
          verifyFromConfirm cfg env db (base58Encode sigBytes) amount sender endpoint userId
        else ⟨.failure (submissionFailedMsg m), db, 1, 1, 0⟩

/-- The whole `verifyPayment` try/catch body.  Step 3 looks the signature
up under its base64 encoding (line 40 of the controller), exactly as the
source does. -/
def verifyPayment (cfg : Config) (env : Env) (db : Db) (blob : Blob)
    (endpoint : String) (userId : Option String) : VerifyOutcome :=
  match blob with
  | .undecodable m => ⟨.failure m, db, 0, 0, 0⟩
  | .tx t =>
    match t.signatures.head? with
    | none => ⟨.failure invalidSigMsg, db, 0, 0, 0⟩
    | some none => ⟨.failure invalidSigMsg, db, 0, 0, 0⟩
    | some (some sigBytes) =>
      match dbFind db (base64Encode sigBytes) with
      | some r =>
        if r.status = .confirmed then ⟨.success r alreadyConfirmedMsg, db, 0, 0, 0⟩
        else if r.status = .failed then ⟨.failure previouslyFailedMsg, db, 0, 0, 0⟩
        else verifyFromValidation cfg env db t sigBytes endpoint userId
      | none => verifyFromValidation cfg env db t sigBytes endpoint userId

/-! ## Concrete fixtures

A minimal configuration, a signed transaction carrying one SPL transfer of
100000 units (the little-endian bytes 160,134,1 decode to 100000), and
environments for the relevant network behaviours.  The transaction's
signature bytes `[1]` encode to `"AQ=="` in base64 (the step-3 lookup key)
and to `"2"` in base58 (the persisted record key).
-/

def cfg0 : Config := ⟨"WALLET", 100000, "MINT", "solana-devnet"⟩

def transferIx0 : Instruction :=
  ⟨TOKEN_PROGRAM_ID, [3, 160, 134, 1, 0, 0, 0, 0, 0], ["SENDER", "DEST"]⟩

def tx0 : Transaction := ⟨[some [1]], [transferIx0]⟩

def meta0 : TxMeta :=
  ⟨[⟨0, "WALLET", "MINT", 0⟩], [⟨0, "WALLET", "MINT", 100000⟩], none, []⟩

def txd0 : TxDetails := ⟨some meta0, some 5, 42⟩

/-- Clean network: submission returns the base58 signature, confirmation
and transaction fetch succeed. -/
def envOk : Env := ⟨.ok, .ok "2", .ok, .found txd0, none⟩

/-- Replay network: submission throws the already-processed error,
everything else succeeds. -/
def envAP : Env :=
  ⟨.ok, .err "This transaction has already been processed", .ok, .found txd0, none⟩

/-- Network where confirmation reports an execution error. -/
def envConfirmFail : Env := ⟨.ok, .ok "2", .errValue "SomeErr", .notFound, none⟩

/-- Replay network where confirmation still reports the execution error. -/
def envAPConfirmFail : Env :=
  ⟨.ok, .err "This transaction has already been processed", .errValue "SomeErr",
    .notFound, none⟩

/-- The confirmed record the clean run persists under the base58 key. -/
def record0 : PaymentRecord :=
  ⟨none, "2", 100000, "MINT", some "SENDER", "WALLET", "/api", .confirmed,
    some 5, some 42, "solana-devnet", true⟩

/-- The failed record persisted when confirmation fails. -/
def failedRecord0 : PaymentRecord :=
  ⟨none, "2", 100000, "MINT", some "SENDER", "WALLET", "/api", .failed,
    none, none, "solana-devnet", false⟩

/-! ## Reduction lemmas for the pipeline -/

theorem verifyPayment_tx_fresh (cfg : Config) (env : Env) (db : Db) (t : Transaction)
    (sigBytes : List Nat) (endpoint : String) (userId : Option String)
    (hsig : t.signatures.head? = some (some sigBytes))
    (hdb : dbFind db (base64Encode sigBytes) = none) :
    verifyPayment cfg env db (Blob.tx t) endpoint userId
      = verifyFromValidation cfg env db t sigBytes endpoint userId := by
  simp only [verifyPayment, hsig, hdb]

theorem verifyFromValidation_sendOk (cfg : Config) (env : Env) (db : Db)
    (t : Transaction) (sigBytes : List Nat) (endpoint : String) (userId : Option String)
    (amount : Nat) (sender : Option String) (txSig : String)
    (hval : validateTransactionInstructions cfg t = .valid amount sender)
    (hsim : env.simulate = .ok)
    (hsend : env.sendRaw = .ok txSig) :
    verifyFromValidation cfg env db t sigBytes endpoint userId
      = verifyFromConfirm cfg env db txSig amount sender endpoint userId := by
  simp only [verifyFromValidation, hval, hsim, simulateResultError, hsend]

theorem verifyFromValidation_sendAP (cfg : Config) (env : Env) (db : Db)
    (t : Transaction) (sigBytes : List Nat) (endpoint : String) (userId : Option String)
    (amount : Nat) (sender : Option String) (m : String)
    (hval : validateTransactionInstructions cfg t = .valid amount sender)
    (hsim : env.simulate = .ok)
    (hsend : env.sendRaw = .err m)
    (hap : isAlreadyProcessedMsg m = true) :
    verifyFromValidation cfg env db t sigBytes endpoint userId
      = verifyFromConfirm cfg env db (base58Encode sigBytes) amount sender endpoint userId := by
  simp only [verifyFromValidation, hval, hsim, simulateResultError, hsend, hap, if_true]

theorem verifyFromConfirm_ok (cfg : Config) (env : Env) (db : Db) (txSig : String)
    (amount : Nat) (sender : Option String) (endpoint : String) (userId : Option String)
    (amt : Int) (bt : Option Int) (slot : Nat)
    (hconf : env.confirm = .ok)
    (htv : verifyOnChainTransfer cfg env = .ok amt bt slot)
    (hw : env.writeFail = none) :
    verifyFromConfirm cfg env db txSig amount sender endpoint userId
      = ⟨.success
            (createPaymentRecord db (confirmedData cfg userId txSig amt sender endpoint bt slot)).1
            confirmedOkMsg,
          (createPaymentRecord db (confirmedData cfg userId txSig amt sender endpoint bt slot)).2,
          1, 1, 1⟩ := by
  simp only [verifyFromConfirm, hconf, confirmResultError, htv, hw]

theorem verifyOnChainTransfer_found (cfg : Config) (env : Env) (d : TxDetails)
    (meta : TxMeta) (tr : TransferInfo)
    (hget : env.getTx = .found d) (hmeta : d.meta = some meta)
    (hfind : (diffTransfers (buildAccountMap meta)).find? (matchesPayment cfg) = some tr)
    (hamt : ¬ tr.amount < (cfg.requiredAmount : Int)) :
    verifyOnChainTransfer cfg env = .ok tr.amount d.blockTime d.slot := by
  have hne : (diffTransfers (buildAccountMap meta)).isEmpty = false := by
    cases hl : diffTransfers (buildAccountMap meta) with
    | nil => rw [hl] at hfind; simp [List.find?] at hfind
    | cons a l => simp [List.isEmpty]
  simp only [verifyOnChainTransfer, hget, parseTokenTransfers, hmeta, hne,
    Bool.false_and, Bool.false_eq_true, if_false, hfind, hamt, if_neg, if_false]

theorem createPaymentRecord_fresh (db : Db) (d : PaymentData)
    (h : dbFind db d.transactionSignature = none) :
    createPaymentRecord db d
      = (freshRecord d, db ++ [(d.transactionSignature, freshRecord d)]) := by
  simp only [createPaymentRecord, h]

theorem dbFind_append_single (db : Db) (k : String) (r : PaymentRecord)
    (h : dbFind db k = none) : dbFind (db ++ [(k, r)]) k = some r := by
  induction db with
  | nil => simp [dbFind, List.find?]
  | cons a l ih =>
    by_cases hk : (a.1 == k) = true
    · simp [dbFind, List.find?, hk] at h
    · have hk' : (a.1 == k) = false := by simpa using hk
      simp only [dbFind, List.cons_append, List.find?, hk'] at h ⊢
      exact ih h

theorem countSig_append_single (db : Db) (k : String) (r : PaymentRecord) :
    countSig (db ++ [(k, r)]) k = countSig db k + 1 := by
  simp [countSig, List.filter_append]

theorem countSig_zero_dbFind (db : Db) (k : String) (h : countSig db k = 0) :
    dbFind db k = none := by
  induction db with
  | nil => rfl
  | cons a l ih =>
    by_cases hk : (a.1 == k) = true
    · simp [countSig, List.filter, hk] at h
    · simp only [countSig, List.filter, hk] at h
      simp only [dbFind, List.find?, hk]
      exact ih h

/-- Every transfer produced by the balance diff corresponds to an account
of the account map whose balance increased by exactly that amount. -/
theorem mem_diffStep (acc : List TransferInfo) (p : Nat × AcctInfo) (tr : TransferInfo)
    (h : tr ∈ diffStep acc p) :
    tr ∈ acc ∨ (tr = ⟨p.2.owner, p.2.mint, p.2.post - p.2.pre, p.1⟩ ∧ 0 < p.2.post - p.2.pre) := by
  unfold diffStep at h
  split at h
  · rcases List.mem_append.mp h with h' | h'
    · exact Or.inl h'
    · simp only [List.mem_singleton] at h'
      exact Or.inr ⟨h', by assumption⟩
  · exact Or.inl h

theorem mem_foldl_diffStep (m : List (Nat × AcctInfo)) (acc : List TransferInfo)
    (tr : TransferInfo) (h : tr ∈ m.foldl diffStep acc) :
    tr ∈ acc ∨ ∃ p ∈ m, tr = ⟨p.2.owner, p.2.mint, p.2.post - p.2.pre, p.1⟩
      ∧ 0 < p.2.post - p.2.pre := by
  induction m generalizing acc with
  | nil => exact Or.inl h
  | cons a l ih =>
    rcases ih (diffStep acc a) h with h' | ⟨p, hp, he, hpos⟩
    · rcases mem_diffStep acc a tr h' with h'' | ⟨he, hpos⟩
      · exact Or.inl h''
      · exact Or.inr ⟨a, List.mem_cons_self a l, he, hpos⟩
    · exact Or.inr ⟨p, List.mem_cons_of_mem a hp, he, hpos⟩

theorem mem_diffTransfers (m : List (Nat × AcctInfo)) (tr : TransferInfo)
    (h : tr ∈ diffTransfers m) :
    ∃ p ∈ m, tr = ⟨p.2.owner, p.2.mint, p.2.post - p.2.pre, p.1⟩
      ∧ 0 < p.2.post - p.2.pre := by
  rcases mem_foldl_diffStep m [] tr h with h' | h'
  · simp at h'
  · exact h'

/-! ## Claims C1-C3: the step-3 lookup key never matches persisted keys

Line 40 of the controller computes the lookup key as
`Buffer.from(signature.signature).toString('base64')` (the variable is
misleadingly named `signatureBase58`), while every record the controller
writes is keyed by `txSignature`, the base58 signature string returned by
`sendRawTransaction` or recovered via `bs58.encode`.  The theorems below
evaluate two-call runs of the embedded `verifyPayment` exhibiting the
consequences.
-/

/-- Claim C1 counterexample run: after a first call persists a confirmed
record for the signature (under key `"2"` = base58 of the signature), a
second call with the identical encoded transaction misses it at the step-3
lookup (which uses `"AQ=="` = base64) and performs a new network
submission, contradicting "performs no new network submission".  The
second call still returns accepted=true with the same single record. -/
theorem c1_replay_resubmits :
    base64Encode [1] = "AQ==" ∧ base58Encode [1] = "2"
    ∧ dbFind (verifyPayment cfg0 envOk [] (Blob.tx tx0) "/api" none).db "2" = some record0
    ∧ record0.status = Status.confirmed
    ∧ (verifyPayment cfg0 envAP (verifyPayment cfg0 envOk [] (Blob.tx tx0) "/api" none).db
        (Blob.tx tx0) "/api" none).submissions = 1
    ∧ (verifyPayment cfg0 envAP (verifyPayment cfg0 envOk [] (Blob.tx tx0) "/api" none).db
        (Blob.tx tx0) "/api" none).result = VResult.success record0 confirmedOkMsg
    ∧ (verifyPayment cfg0 envAP (verifyPayment cfg0 envOk [] (Blob.tx tx0) "/api" none).db
        (Blob.tx tx0) "/api" none).db.length = 1 := by
  decide

/-- Claim C2 counterexample run: a first call whose confirmation fails
persists a failed record for the signature; a retry of the same encoded
transaction is not blocked by the `PreviouslyFailed` guard (the base64
lookup key misses the base58 record key) and, when the network now
confirms, upserts the same record to status confirmed — the forbidden
failed-to-confirmed transition. -/
theorem c2_failed_flips_to_confirmed :
    dbFind (verifyPayment cfg0 envConfirmFail [] (Blob.tx tx0) "/api" none).db "2"
        = some failedRecord0
    ∧ failedRecord0.status = Status.failed
    ∧ dbFind (verifyPayment cfg0 envAP
          (verifyPayment cfg0 envConfirmFail [] (Blob.tx tx0) "/api" none).db
          (Blob.tx tx0) "/api" none).db "2" = some record0
    ∧ record0.status = Status.confirmed := by
  decide

/-- Claim C3 counterexample run: after a confirmation failure persisted a
failed record, a subsequent call with the same encoded transaction is not
rejected at the step-3 lookup with the `PreviouslyFailed` reason: it
reaches a new network submission (submissions = 1) and fails again with
the confirmation error instead. -/
theorem c3_retry_not_rejected_at_lookup :
    dbFind (verifyPayment cfg0 envConfirmFail [] (Blob.tx tx0) "/api" none).db "2"
        = some failedRecord0
    ∧ (verifyPayment cfg0 envAPConfirmFail
          (verifyPayment cfg0 envConfirmFail [] (Blob.tx tx0) "/api" none).db
          (Blob.tx tx0) "/api" none).result = VResult.failure "Transaction failed: SomeErr"
    ∧ (verifyPayment cfg0 envAPConfirmFail
          (verifyPayment cfg0 envConfirmFail [] (Blob.tx tx0) "/api" none).db
          (Blob.tx tx0) "/api" none).result ≠ VResult.failure previouslyFailedMsg
    ∧ (verifyPayment cfg0 envAPConfirmFail
          (verifyPayment cfg0 envConfirmFail [] (Blob.tx tx0) "/api" none).db
          (Blob.tx tx0) "/api" none).submissions = 1 := by
  decide

/-! ## Claims C4-C10 -/

theorem findTransferIx_first (pre : List Instruction) (ix : Instruction)
    (post : List Instruction)
    (hpre : ∀ j ∈ pre, isTransferIx j = false) (hix : isTransferIx ix = true) :
    findTransferIx (pre ++ ix :: post) = some ix := by
  induction pre with
  | nil => simp [findTransferIx, hix]
  | cons a l ih =>
    have ha : isTransferIx a = false := hpre a (List.mem_cons_self a l)
    simp only [List.cons_append, findTransferIx, ha, Bool.false_eq_true, if_false]
    exact ih (fun j hj => hpre j (List.mem_cons_of_mem a hj))

/-- Claim C4: for a transaction passing every pipeline step whose finalized
balance metadata contains an account with a positive token-balance delta
matching the expected recipient wallet and mint (the first such transfer
selected by `verifyOnChainTransfer`, with delta at least the required
amount), `verifyPayment` returns accepted=true and persists a confirmed
record whose amount equals that account's post-minus-pre delta. -/
theorem c4_confirmed_amount_is_delta
    (cfg : Config) (env : Env) (db : Db) (t : Transaction) (sigBytes : List Nat)
    (endpoint : String) (userId : Option String)
    (amount : Nat) (sender : Option String) (txSig : String)
    (d : TxDetails) (meta : TxMeta) (tr : TransferInfo)
    (hsig : t.signatures.head? = some (some sigBytes))
    (hdb : dbFind db (base64Encode sigBytes) = none)
    (hval : validateTransactionInstructions cfg t = .valid amount sender)
    (hsim : env.simulate = .ok)
    (hsend : env.sendRaw = .ok txSig)
    (hconf : env.confirm = .ok)
    (hw : env.writeFail = none)
    (hget : env.getTx = .found d)
    (hmeta : d.meta = some meta)
    (hfind : (diffTransfers (buildAccountMap meta)).find? (matchesPayment cfg) = some tr)
    (hamt : ¬ tr.amount < (cfg.requiredAmount : Int))
    (hnew : dbFind db txSig = none) :
    ∃ r : PaymentRecord,
      (verifyPayment cfg env db (Blob.tx t) endpoint userId).result
          = VResult.success r confirmedOkMsg
        ∧ r.status = Status.confirmed
        ∧ r.amount = tr.amount
        ∧ dbFind (verifyPayment cfg env db (Blob.tx t) endpoint userId).db txSig = some r
        ∧ ∃ p ∈ buildAccountMap meta,
            tr.amount = p.2.post - p.2.pre ∧ tr.destination = p.2.owner
              ∧ tr.mint = p.2.mint := by
  have htv := verifyOnChainTransfer_found cfg env d meta tr hget hmeta hfind hamt
  have h1 := verifyPayment_tx_fresh cfg env db t sigBytes endpoint userId hsig hdb
  have h2 := verifyFromValidation_sendOk cfg env db t sigBytes endpoint userId
    amount sender txSig hval hsim hsend
  have h3 := verifyFromConfirm_ok cfg env db txSig amount sender endpoint userId
    tr.amount d.blockTime d.slot hconf htv hw
  have hc := createPaymentRecord_fresh db
    (confirmedData cfg userId txSig tr.amount sender endpoint d.blockTime d.slot) hnew
  refine ⟨freshRecord (confirmedData cfg userId txSig tr.amount sender endpoint
      d.blockTime d.slot), ?_, rfl, rfl, ?_, ?_⟩
  · rw [h1, h2, h3, hc]
  · rw [h1, h2, h3, hc]
    exact dbFind_append_single db txSig _ hnew
  · obtain ⟨p, hp, he, hpos⟩ := mem_diffTransfers _ _ (List.mem_of_find?_eq_some hfind)
    exact ⟨p, hp, by rw [he], by rw [he], by rw [he]⟩

/-- Claim C4 witness: the fixture run, where the recipient account's delta
is 100000 and the persisted confirmed record carries exactly that amount. -/
theorem c4_witness :
    ∃ r : PaymentRecord,
      (verifyPayment cfg0 envOk [] (Blob.tx tx0) "/api" none).result
          = VResult.success r confirmedOkMsg
        ∧ r.status = Status.confirmed
        ∧ r.amount = (⟨"WALLET", "MINT", 100000, 0⟩ : TransferInfo).amount
        ∧ dbFind (verifyPayment cfg0 envOk [] (Blob.tx tx0) "/api" none).db "2" = some r
        ∧ ∃ p ∈ buildAccountMap meta0,
            (⟨"WALLET", "MINT", 100000, 0⟩ : TransferInfo).amount = p.2.post - p.2.pre
              ∧ (⟨"WALLET", "MINT", 100000, 0⟩ : TransferInfo).destination = p.2.owner
              ∧ (⟨"WALLET", "MINT", 100000, 0⟩ : TransferInfo).mint = p.2.mint :=
  c4_confirmed_amount_is_delta cfg0 envOk [] tx0 [1] "/api" none 100000 (some "SENDER")
    "2" txd0 meta0 ⟨"WALLET", "MINT", 100000, 0⟩ rfl rfl (by decide) rfl rfl rfl rfl rfl
    rfl (by decide) (by decide) rfl

/-- Claim C5: when submission throws an "already processed" error and the
rest of the pipeline succeeds on a database holding no record under the
recovered base58 signature, `verifyPayment` does not fail (in particular
never with `SubmissionFailed`), recovers the signature as the base58
encoding of the transaction's first signature, and the outcome is exactly
one confirmed record under that signature. -/
theorem c5_already_processed_recovery
    (cfg : Config) (env : Env) (db : Db) (t : Transaction) (sigBytes : List Nat)
    (endpoint : String) (userId : Option String)
    (amount : Nat) (sender : Option String) (m : String)
    (amt : Int) (bt : Option Int) (slot : Nat)
    (hsig : t.signatures.head? = some (some sigBytes))
    (hdb : dbFind db (base64Encode sigBytes) = none)
    (hval : validateTransactionInstructions cfg t = .valid amount sender)
    (hsim : env.simulate = .ok)
    (hsend : env.sendRaw = .err m)
    (hap : isAlreadyProcessedMsg m = true)
    (hconf : env.confirm = .ok)
    (htv : verifyOnChainTransfer cfg env = .ok amt bt slot)
    (hw : env.writeFail = none)
    (hcount : countSig db (base58Encode sigBytes) = 0) :
    (∀ e, (verifyPayment cfg env db (Blob.tx t) endpoint userId).result
        ≠ VResult.failure e)
    ∧ ∃ r : PaymentRecord,
        (verifyPayment cfg env db (Blob.tx t) endpoint userId).result
            = VResult.success r confirmedOkMsg
          ∧ r.status = Status.confirmed
          ∧ dbFind (verifyPayment cfg env db (Blob.tx t) endpoint userId).db
              (base58Encode sigBytes) = some r
          ∧ countSig (verifyPayment cfg env db (Blob.tx t) endpoint userId).db
              (base58Encode sigBytes) = 1 := by
  have hfresh : dbFind db (base58Encode sigBytes) = none := countSig_zero_dbFind db _ hcount
  have h1 := verifyPayment_tx_fresh cfg env db t sigBytes endpoint userId hsig hdb
  have h2 := verifyFromValidation_sendAP cfg env db t sigBytes endpoint userId
    amount sender m hval hsim hsend hap
  have h3 := verifyFromConfirm_ok cfg env db (base58Encode sigBytes) amount sender
    endpoint userId amt bt slot hconf htv hw
  have hc := createPaymentRecord_fresh db
    (confirmedData cfg userId (base58Encode sigBytes) amt sender endpoint bt slot) hfresh
  constructor
  · intro e
    rw [h1, h2, h3]
    simp
  · refine ⟨freshRecord (confirmedData cfg userId (base58Encode sigBytes) amt sender
        endpoint bt slot), ?_, rfl, ?_, ?_⟩
    · rw [h1, h2, h3, hc]
    · rw [h1, h2, h3, hc]
      exact dbFind_append_single db _ _ hfresh
    · rw [h1, h2, h3, hc]
      show countSig (db ++ [(base58Encode sigBytes, _)]) (base58Encode sigBytes) = 1
      rw [countSig_append_single, hcount]

/-- Claim C5 witness: the fixture replay run with the already-processed
submission error ends in exactly one confirmed record under key "2". -/
theorem c5_witness :
    (∀ e, (verifyPayment cfg0 envAP [] (Blob.tx tx0) "/api" none).result
        ≠ VResult.failure e)
    ∧ ∃ r : PaymentRecord,
        (verifyPayment cfg0 envAP [] (Blob.tx tx0) "/api" none).result
            = VResult.success r confirmedOkMsg
          ∧ r.status = Status.confirmed
          ∧ dbFind (verifyPayment cfg0 envAP [] (Blob.tx tx0) "/api" none).db
              (base58Encode [1]) = some r
          ∧ countSig (verifyPayment cfg0 envAP [] (Blob.tx tx0) "/api" none).db
              (base58Encode [1]) = 1 :=
  c5_already_processed_recovery cfg0 envAP [] tx0 [1] "/api" none 100000 (some "SENDER")
    "This transaction has already been processed" 100000 (some 5) 42 rfl rfl (by decide)
    rfl rfl (by decide) rfl (by decide) rfl rfl

/-- The transfer instruction of the insufficient-amount fixture: amount
bytes decode to 50000, below the required 100000. -/
def ixLow : Instruction :=
  ⟨TOKEN_PROGRAM_ID, [3, 80, 195, 0, 0, 0, 0, 0, 0], ["SENDER", "DEST"]⟩

def txLow : Transaction := ⟨[some [1]], [ixLow]⟩

/-- Claim C6: if the decoded transfer amount is below the configured
minimum, `verifyPayment` fails with the insufficient-amount reason and the
call leaves the database unchanged (so no confirmed record is persisted)
with no submission, simulation or write performed. -/
theorem c6_insufficient_amount
    (cfg : Config) (env : Env) (db : Db) (t : Transaction) (sigBytes : List Nat)
    (endpoint : String) (userId : Option String) (ix : Instruction)
    (hsig : t.signatures.head? = some (some sigBytes))
    (hdb : dbFind db (base64Encode sigBytes) = none)
    (hfindix : findTransferIx t.instructions = some ix)
    (hlen : ¬ ix.data.length < 9)
    (hlt : readU64LE ix.data 1 < cfg.requiredAmount) :
    verifyPayment cfg env db (Blob.tx t) endpoint userId
      = ⟨.failure (insufficientMsg cfg.requiredAmount (readU64LE ix.data 1)),
          db, 0, 0, 0⟩ := by
  have hne : t.instructions.isEmpty = false := by
    cases hi : t.instructions with
    | nil => rw [hi] at hfindix; simp [findTransferIx] at hfindix
    | cons a l => simp [List.isEmpty]
  have hval : validateTransactionInstructions cfg t
      = .invalid (insufficientMsg cfg.requiredAmount (readU64LE ix.data 1)) := by
    simp only [validateTransactionInstructions, hne, Bool.false_eq_true, if_false,
      hfindix, if_neg hlen, if_pos hlt]
  rw [verifyPayment_tx_fresh cfg env db t sigBytes endpoint userId hsig hdb]
  simp only [verifyFromValidation, hval]

/-- Claim C6 witness: a 50000-unit transfer against the 100000 minimum is
rejected with the insufficient-amount message and no state change. -/
theorem c6_witness :
    verifyPayment cfg0 envOk [] (Blob.tx txLow) "/api" none
      = ⟨.failure (insufficientMsg cfg0.requiredAmount (readU64LE ixLow.data 1)),
          [], 0, 0, 0⟩ :=
  c6_insufficient_amount cfg0 envOk [] txLow [1] "/api" none ixLow rfl rfl rfl
    (by decide) (by decide)

/-- Claim C7: a transaction with no token-transfer instruction is rejected
during static validation — the call performs no network submission, no
simulation and no persistence write, and leaves the database unchanged.
The rejection message is the no-transfer-instruction one (or, for an empty
instruction list, the no-instructions variant of the same validation
rejection). -/
theorem c7_no_submission_before_validation
    (cfg : Config) (env : Env) (db : Db) (t : Transaction) (sigBytes : List Nat)
    (endpoint : String) (userId : Option String)
    (hsig : t.signatures.head? = some (some sigBytes))
    (hdb : dbFind db (base64Encode sigBytes) = none)
    (hnone : findTransferIx t.instructions = none) :
    (∃ e, (verifyPayment cfg env db (Blob.tx t) endpoint userId).result
          = VResult.failure e
        ∧ (e = noTransferMsg ∨ e = noInstructionsMsg))
    ∧ (verifyPayment cfg env db (Blob.tx t) endpoint userId).submissions = 0
    ∧ (verifyPayment cfg env db (Blob.tx t) endpoint userId).simulations = 0
    ∧ (verifyPayment cfg env db (Blob.tx t) endpoint userId).dbWrites = 0
    ∧ (verifyPayment cfg env db (Blob.tx t) endpoint userId).db = db := by
  have hval : ∃ e, validateTransactionInstructions cfg t = .invalid e
      ∧ (e = noTransferMsg ∨ e = noInstructionsMsg) := by
    cases hi : t.instructions with
    | nil =>
      exact ⟨noInstructionsMsg, by simp [validateTransactionInstructions, hi], Or.inr rfl⟩
    | cons a l =>
      rw [hi] at hnone
      exact ⟨noTransferMsg,
        by simp [validateTransactionInstructions, hi, hnone, List.isEmpty], Or.inl rfl⟩
  obtain ⟨e, hval, he⟩ := hval
  have hout : verifyPayment cfg env db (Blob.tx t) endpoint userId
      = ⟨.failure e, db, 0, 0, 0⟩ := by
    rw [verifyPayment_tx_fresh cfg env db t sigBytes endpoint userId hsig hdb]
    simp only [verifyFromValidation, hval]
  rw [hout]
  exact ⟨⟨e, rfl, he⟩, rfl, rfl, rfl, rfl⟩

/-- A signed transaction whose only instruction is not addressed to the
token program. -/
def nonTransferTx : Transaction := ⟨[some [1]], [⟨"OtherProgram", [2], ["K"]⟩]⟩

/-- Claim C7 witness: the non-transfer fixture is rejected with the
no-transfer-instruction message and zero side effects. -/
theorem c7_witness :
    (∃ e, (verifyPayment cfg0 envOk [] (Blob.tx nonTransferTx) "/api" none).result
          = VResult.failure e
        ∧ (e = noTransferMsg ∨ e = noInstructionsMsg))
    ∧ (verifyPayment cfg0 envOk [] (Blob.tx nonTransferTx) "/api" none).submissions = 0
    ∧ (verifyPayment cfg0 envOk [] (Blob.tx nonTransferTx) "/api" none).simulations = 0
    ∧ (verifyPayment cfg0 envOk [] (Blob.tx nonTransferTx) "/api" none).dbWrites = 0
    ∧ (verifyPayment cfg0 envOk [] (Blob.tx nonTransferTx) "/api" none).db = [] :=
  c7_no_submission_before_validation cfg0 envOk [] nonTransferTx [1] "/api" none
    rfl rfl (by decide)

/-- Claim C8: static instruction validation (a) rejects with the
no-transfer-instruction message exactly when no token-program instruction
with leading data byte 3 exists, (b) for the first such instruction (with
well-formed data and at least two account keys) accepts with the amount
decoded from instruction-data bytes 1-9 and the sender taken from the
first account key, and (c) the decoded amount is the little-endian 8-byte
unsigned integer of those bytes. -/
theorem c8_static_validation (cfg : Config) (t : Transaction) :
    (t.instructions ≠ [] → findTransferIx t.instructions = none →
      validateTransactionInstructions cfg t = .invalid noTransferMsg)
    ∧ (∀ pre ix post, t.instructions = pre ++ ix :: post →
        (∀ j ∈ pre, isTransferIx j = false) → isTransferIx ix = true →
        ¬ ix.data.length < 9 → 2 ≤ ix.keys.length →
        ¬ readU64LE ix.data 1 < cfg.requiredAmount →
        validateTransactionInstructions cfg t
          = .valid (readU64LE ix.data 1) ix.keys.head?)
    ∧ (∀ data : List Nat, readU64LE data 1
        = data.getD 1 0 + 256 * data.getD 2 0 + 65536 * data.getD 3 0
          + 16777216 * data.getD 4 0 + 4294967296 * data.getD 5 0
          + 1099511627776 * data.getD 6 0 + 281474976710656 * data.getD 7 0
          + 72057594037927936 * data.getD 8 0) := by
  refine ⟨?_, ?_, ?_⟩
  · intro hne hnone
    have hne' : t.instructions.isEmpty = false := by
      cases hi : t.instructions with
      | nil => exact absurd hi hne
      | cons a l => simp [List.isEmpty]
    simp only [validateTransactionInstructions, hne', Bool.false_eq_true, if_false, hnone]
  · intro pre ix post hsplit hpre hix hlen hkeys hamt
    have hne : t.instructions.isEmpty = false := by
      rw [hsplit]; cases pre <;> simp [List.isEmpty]
    have hfind : findTransferIx t.instructions = some ix := by
      rw [hsplit]; exact findTransferIx_first pre ix post hpre hix
    simp only [validateTransactionInstructions, hne, Bool.false_eq_true, if_false,
      hfind, if_neg hlen, if_neg hamt, if_pos hkeys]
  · intro data
    have h8 : List.range 8 = [0, 1, 2, 3, 4, 5, 6, 7] := rfl
    rw [readU64LE, h8]
    simp only [List.foldl]
    norm_num
    ring

/-- Claim C8 witness: the fixture transaction's single transfer
instruction is located and decoded to amount 100000 with sender its first
account key. -/
theorem c8_witness :
    validateTransactionInstructions cfg0 tx0
      = ValidationResult.valid (readU64LE transferIx0.data 1) transferIx0.keys.head? :=
  (c8_static_validation cfg0 tx0).2.1 [] transferIx0 [] rfl (by simp) (by decide)
    (by decide) (by decide) (by decide)

/-- Claim C9: for every input — undecodable blobs included — and every
behaviour of the external collaborators (persistence-write errors
included, via `Env.writeFail`), `verifyPayment` returns a structured
result: either success with a record or failure with an error-reason
string; and an undecodable blob yields the structured failure carrying the
decoder's message. -/
theorem c9_total_structured_result (cfg : Config) (env : Env) (db : Db) (blob : Blob)
    (endpoint : String) (userId : Option String) :
    ((∃ p m, (verifyPayment cfg env db blob endpoint userId).result
          = VResult.success p m)
      ∨ (∃ e, (verifyPayment cfg env db blob endpoint userId).result
          = VResult.failure e))
    ∧ (∀ m, (verifyPayment cfg env db (Blob.undecodable m) endpoint userId).result
        = VResult.failure m) := by
  constructor
  · cases h : (verifyPayment cfg env db blob endpoint userId).result with
    | success p m => exact Or.inl ⟨p, m, rfl⟩
    | failure e => exact Or.inr ⟨e, rfl⟩
  · intro m
    rfl

/-- Claim C10: when the first token-program instruction with leading data
byte 3 has fewer than two account keys, validation still accepts (given a
sufficient decoded amount) with sender null, the pipeline proceeds, and
the persisted confirmed record carries a null sender identifier. -/
theorem c10_null_sender_proceeds
    (cfg : Config) (env : Env) (db : Db) (t : Transaction) (sigBytes : List Nat)
    (endpoint : String) (userId : Option String) (ix : Instruction) (txSig : String)
    (amt : Int) (bt : Option Int) (slot : Nat)
    (hsig : t.signatures.head? = some (some sigBytes))
    (hdb : dbFind db (base64Encode sigBytes) = none)
    (hfindix : findTransferIx t.instructions = some ix)
    (hlen : ¬ ix.data.length < 9)
    (hkeys : ix.keys.length < 2)
    (hamt : ¬ readU64LE ix.data 1 < cfg.requiredAmount)
    (hsim : env.simulate = .ok)
    (hsend : env.sendRaw = .ok txSig)
    (hconf : env.confirm = .ok)
    (htv : verifyOnChainTransfer cfg env = .ok amt bt slot)
    (hw : env.writeFail = none)
    (hnew : dbFind db txSig = none) :
    validateTransactionInstructions cfg t = .valid (readU64LE ix.data 1) none
    ∧ ∃ r : PaymentRecord,
        (verifyPayment cfg env db (Blob.tx t) endpoint userId).result
            = VResult.success r confirmedOkMsg
          ∧ dbFind (verifyPayment cfg env db (Blob.tx t) endpoint userId).db txSig
              = some r
          ∧ r.senderWallet = none := by
  have hne : t.instructions.isEmpty = false := by
    cases hi : t.instructions with
    | nil => rw [hi] at hfindix; simp [findTransferIx] at hfindix
    | cons a l => simp [List.isEmpty]
  have hkeys' : ¬ 2 ≤ ix.keys.length := by omega
  have hval : validateTransactionInstructions cfg t
      = .valid (readU64LE ix.data 1) none := by
    simp only [validateTransactionInstructions, hne, Bool.false_eq_true, if_false,
      hfindix, if_neg hlen, if_neg hamt, if_neg hkeys']
  refine ⟨hval, ?_⟩
  have h1 := verifyPayment_tx_fresh cfg env db t sigBytes endpoint userId hsig hdb
  have h2 := verifyFromValidation_sendOk cfg env db t sigBytes endpoint userId
    (readU64LE ix.data 1) none txSig hval hsim hsend
  have h3 := verifyFromConfirm_ok cfg env db txSig (readU64LE ix.data 1) none
    endpoint userId amt bt slot hconf htv hw
  have hc := createPaymentRecord_fresh db
    (confirmedData cfg userId txSig amt none endpoint bt slot) hnew
  refine ⟨freshRecord (confirmedData cfg userId txSig amt none endpoint bt slot),
    ?_, ?_, rfl⟩
  · rw [h1, h2, h3, hc]
  · rw [h1, h2, h3, hc]
    exact dbFind_append_single db _ _ hnew

/-- A signed transaction whose transfer instruction has a single account
key, so no sender can be extracted. -/
def txOneKey : Transaction :=
  ⟨[some [1]], [⟨TOKEN_PROGRAM_ID, [3, 160, 134, 1, 0, 0, 0, 0, 0], ["ONLY"]⟩]⟩

/-- Claim C10 witness: the single-key fixture is accepted with sender null
and the persisted confirmed record has a null sender wallet. -/
theorem c10_witness :
    validateTransactionInstructions cfg0 txOneKey
      = ValidationResult.valid (readU64LE [3, 160, 134, 1, 0, 0, 0, 0, 0] 1) none
    ∧ ∃ r : PaymentRecord,
        (verifyPayment cfg0 envOk [] (Blob.tx txOneKey) "/api" none).result
            = VResult.success r confirmedOkMsg
          ∧ dbFind (verifyPayment cfg0 envOk [] (Blob.tx txOneKey) "/api" none).db "2"
              = some r
          ∧ r.senderWallet = none :=
  c10_null_sender_proceeds cfg0 envOk [] txOneKey [1] "/api" none
    ⟨TOKEN_PROGRAM_ID, [3, 160, 134, 1, 0, 0, 0, 0, 0], ["ONLY"]⟩ "2" 100000 (some 5) 42
    rfl rfl rfl (by decide) (by decide) (by decide) rfl rfl rfl (by decide) rfl rfl

end ChainProof
